import Mathlib

/-!
Verification of the `rlstats-rs` client (src/lib.rs, src/model.rs) against its
natural-language specification.

The embedding models JSON payloads as an inductive `Json` value type (only
integral JSON numbers occur in this API's shapes, so numbers are `Int`), and
models `serde_json::from_str::<T>` as "parse the body text, then run the
serde-derived decoder for `T` on the resulting value".  A response body that is
not syntactically valid JSON is represented as `none : Option Json`; decode
errors are abstracted as strings.  The serde-derive semantics for structs is
embedded faithfully: object entries are visited in order, a repeated known
field is a "duplicate field" error, unknown fields are skipped, and after all
entries are visited the declared fields are checked in declaration order, a
missing non-`Option` field being an error and a missing `Option` field
defaulting to `none`.
-/

/-- JSON values, as produced by parsing a response body. -/
inductive Json where
  | null
  | bool (b : Bool)
  | num (n : Int)
  | str (s : String)
  | arr (items : List Json)
  | obj (fields : List (String × Json))

/-- Result of `serde_json::from_str`: parse the body text (a body that is not
valid JSON is `none`), then decode the value. -/
def fromStr (dec : Json → Except String α) : Option Json → Except String α
  | none => .error "expected value: body is not valid JSON"
  | some j => dec j

/-- Decoder for a Rust `i32`: an integral JSON number within the `i32` range. -/
def decodeI32 : Json → Except String Int
  | .num n => if -(2 ^ 31) ≤ n ∧ n < 2 ^ 31 then .ok n else .error "number out of range of i32"
  | _ => .error "invalid type, expected i32"

/-- Decoder for a Rust `i64`: an integral JSON number within the `i64` range. -/
def decodeI64 : Json → Except String Int
  | .num n => if -(2 ^ 63) ≤ n ∧ n < 2 ^ 63 then .ok n else .error "number out of range of i64"
  | _ => .error "invalid type, expected i64"

/-- Decoder for a Rust `String` field. -/
def decodeString : Json → Except String String
  | .str s => .ok s
  | _ => .error "invalid type, expected a string"

/-- Decoder for `Option<T>`: JSON `null` is `none`, otherwise the inner
decoder runs. -/
def decodeOption (dec : Json → Except String α) : Json → Except String (Option α)
  | .null => .ok none
  | j => (dec j).map some

/-- Decoder for `Vec<T>`: a JSON array, each element decoded in order. -/
def decodeList (dec : Json → Except String α) : Json → Except String (List α)
  | .arr items => go items
  | _ => .error "invalid type, expected a sequence"
where
  go : List Json → Except String (List α)
    | [] => .ok []
    | j :: rest => do
        let x ← dec j
        let xs ← go rest
        .ok (x :: xs)

/-- Insertion into the sorted association list modelling a Rust
`BTreeMap<String, V>`; inserting an existing key replaces its value. -/
def btreeInsert (k : String) (v : α) : List (String × α) → List (String × α)
  | [] => [(k, v)]
  | (k', v') :: rest =>
      if k < k' then (k, v) :: (k', v') :: rest
      else if k = k' then (k, v) :: rest
      else (k', v') :: btreeInsert k v rest

/-- Decoder for `BTreeMap<String, V>`: a JSON object whose entries are
inserted in order (a repeated key keeps the last value, as `BTreeMap`
insertion does). -/
def decodeStrMap (dec : Json → Except String α) : Json → Except String (List (String × α))
  | .obj fields => go fields []
  | _ => .error "invalid type, expected a map"
where
  go : List (String × Json) → List (String × α) → Except String (List (String × α))
    | [], acc => .ok acc
    | (k, j) :: rest, acc => do
        let v ← dec j
        go rest (btreeInsert k v acc)

/-- Error envelope of the service (src/lib.rs lines 31-35): the
`ResponseCode` struct with fields `code: i32` and `message: String`. -/
structure ResponseCode where
  code : Int
  message : String
deriving DecidableEq, Repr

/-- Serde-derived decoder for `ResponseCode`. -/
def decodeResponseCode (j : Json) : Except String ResponseCode :=
  match j with
  | .obj fields => go fields none none
  | _ => .error "invalid type, expected struct ResponseCode"
where
  go : List (String × Json) → Option Int → Option String → Except String ResponseCode
    | [], some c, some m => .ok ⟨c, m⟩
    | [], none, _ => .error "missing field code"
    | [], _, none => .error "missing field message"
    | (k, v) :: rest, c?, m? =>
        if k = "code" then
          match c? with
          | some _ => .error "duplicate field code"
          | none => do go rest (some (← decodeI32 v)) m?
        else if k = "message" then
          match m? with
          | some _ => .error "duplicate field message"
          | none => do go rest c? (some (← decodeString v))
        else go rest c? m?

/-- Platform record (src/lib.rs lines 38-47): fields `id: i32`,
`name: String`. -/
structure Platform where
  id : Int
  name : String
deriving DecidableEq, Repr

/-- Serde-derived decoder for `Platform`. -/
def decodePlatform (j : Json) : Except String Platform :=
  match j with
  | .obj fields => go fields none none
  | _ => .error "invalid type, expected struct Platform"
where
  go : List (String × Json) → Option Int → Option String → Except String Platform
    | [], some i, some n => .ok ⟨i, n⟩
    | [], none, _ => .error "missing field id"
    | [], _, none => .error "missing field name"
    | (k, v) :: rest, i?, n? =>
        if k = "id" then
          match i? with
          | some _ => .error "duplicate field id"
          | none => do go rest (some (← decodeI32 v)) n?
        else if k = "name" then
          match n? with
          | some _ => .error "duplicate field name"
          | none => do go rest i? (some (← decodeString v))
        else go rest i? n?

/-- Season record (src/lib.rs lines 50-63): `seasonId: i64`,
`startedOn: i64`, `endedOn: Option<i64>` (absent means still active). -/
structure Season where
  season_id : Int
  started_on : Int
  ended_on : Option Int
deriving DecidableEq, Repr

/-- Serde-derived decoder for `Season`; the renamed JSON keys are
`seasonId`, `startedOn`, `endedOn`, and the `Option` field defaults to
`none` when absent. -/
def decodeSeason (j : Json) : Except String Season :=
  match j with
  | .obj fields => go fields none none none
  | _ => .error "invalid type, expected struct Season"
where
  go : List (String × Json) → Option Int → Option Int → Option (Option Int) →
      Except String Season
    | [], some s, some st, e? => .ok ⟨s, st, e?.getD none⟩
    | [], none, _, _ => .error "missing field seasonId"
    | [], _, none, _ => .error "missing field startedOn"
    | (k, v) :: rest, s?, st?, e? =>
        if k = "seasonId" then
          match s? with
          | some _ => .error "duplicate field seasonId"
          | none => do go rest (some (← decodeI64 v)) st? e?
        else if k = "startedOn" then
          match st? with
          | some _ => .error "duplicate field startedOn"
          | none => do go rest s? (some (← decodeI64 v)) e?
        else if k = "endedOn" then
          match e? with
          | some _ => .error "duplicate field endedOn"
          | none => do go rest s? st? (some (← decodeOption decodeI64 v))
        else go rest s? st? e?

example : decodePlatform (.obj [("id", .num 1), ("name", .str "Steam")]) = .ok ⟨1, "Steam"⟩ := rfl

example : decodeResponseCode (.obj [("code", .num 404), ("message", .str "Player not found")]) =
    .ok ⟨404, "Player not found"⟩ := rfl

example : decodeList decodePlatform (.arr []) = .ok [] := rfl

/-- Population record (src/lib.rs lines 66-73): `players: i32`,
`updatedAt: i64`. -/
structure Population where
  players : Int
  updated_at : Int
deriving DecidableEq, Repr

/-- Serde-derived decoder for `Population`. -/
def decodePopulation (j : Json) : Except String Population :=
  match j with
  | .obj fields => go fields none none
  | _ => .error "invalid type, expected struct Population"
where
  go : List (String × Json) → Option Int → Option Int → Except String Population
    | [], some p, some u => .ok ⟨p, u⟩
    | [], none, _ => .error "missing field players"
    | [], _, none => .error "missing field updatedAt"
    | (k, v) :: rest, p?, u? =>
        if k = "players" then
          match p? with
          | some _ => .error "duplicate field players"
          | none => do go rest (some (← decodeI32 v)) u?
        else if k = "updatedAt" then
          match u? with
          | some _ => .error "duplicate field updatedAt"
          | none => do go rest p? (some (← decodeI64 v))
        else go rest p? u?

/-- Playlist record (src/lib.rs lines 76-84): `id: i32`, `platformId: i32`,
`name: String`, `population: Population`. -/
structure Playlist where
  id : Int
  platform_id : Int
  name : String
  population : Population
deriving DecidableEq, Repr

/-- Accumulator for the serde-derived `Playlist` decoder. -/
structure PlaylistAcc where
  id : Option Int := none
  platform_id : Option Int := none
  name : Option String := none
  population : Option Population := none

/-- Extraction of a mandatory struct field after all entries were visited. -/
def requireField (o : Option α) (name : String) : Except String α :=
  match o with
  | some x => .ok x
  | none => .error ("missing field " ++ name)

/-- Serde-derived decoder for `Playlist`. -/
def decodePlaylist (j : Json) : Except String Playlist :=
  match j with
  | .obj fields => go fields {}
  | _ => .error "invalid type, expected struct Playlist"
where
  finish (a : PlaylistAcc) : Except String Playlist := do
    let i ← requireField a.id "id"
    let pi ← requireField a.platform_id "platformId"
    let n ← requireField a.name "name"
    let po ← requireField a.population "population"
    .ok ⟨i, pi, n, po⟩
  go : List (String × Json) → PlaylistAcc → Except String Playlist
    | [], acc => finish acc
    | (k, v) :: rest, acc =>
        if k = "id" then
          match acc.id with
          | some _ => .error "duplicate field id"
          | none => do go rest { acc with id := some (← decodeI32 v) }
        else if k = "platformId" then
          match acc.platform_id with
          | some _ => .error "duplicate field platformId"
          | none => do go rest { acc with platform_id := some (← decodeI32 v) }
        else if k = "name" then
          match acc.name with
          | some _ => .error "duplicate field name"
          | none => do go rest { acc with name := some (← decodeString v) }
        else if k = "population" then
          match acc.population with
          | some _ => .error "duplicate field population"
          | none => do go rest { acc with population := some (← decodePopulation v) }
        else go rest acc

/-- Tier record (src/lib.rs lines 88-138): `tierId: i32`, `tierName: String`. -/
structure Tier where
  id : Int
  name : String
deriving DecidableEq, Repr

/-- Serde-derived decoder for `Tier` (JSON keys `tierId` and `tierName`). -/
def decodeTier (j : Json) : Except String Tier :=
  match j with
  | .obj fields => go fields none none
  | _ => .error "invalid type, expected struct Tier"
where
  go : List (String × Json) → Option Int → Option String → Except String Tier
    | [], some i, some n => .ok ⟨i, n⟩
    | [], none, _ => .error "missing field tierId"
    | [], _, none => .error "missing field tierName"
    | (k, v) :: rest, i?, n? =>
        if k = "tierId" then
          match i? with
          | some _ => .error "duplicate field tierId"
          | none => do go rest (some (← decodeI32 v)) n?
        else if k = "tierName" then
          match n? with
          | some _ => .error "duplicate field tierName"
          | none => do go rest i? (some (← decodeString v))
        else go rest i? n?

/-- Stats record (src/lib.rs lines 141-149): six `i32` counters. -/
structure Stats where
  wins : Int
  goals : Int
  mvps : Int
  saves : Int
  shots : Int
  assists : Int
deriving DecidableEq, Repr

/-- Accumulator for the serde-derived `Stats` decoder. -/
structure StatsAcc where
  wins : Option Int := none
  goals : Option Int := none
  mvps : Option Int := none
  saves : Option Int := none
  shots : Option Int := none
  assists : Option Int := none

/-- Serde-derived decoder for `Stats`. -/
def decodeStats (j : Json) : Except String Stats :=
  match j with
  | .obj fields => go fields {}
  | _ => .error "invalid type, expected struct Stats"
where
  finish (a : StatsAcc) : Except String Stats := do
    let w ← requireField a.wins "wins"
    let g ← requireField a.goals "goals"
    let m ← requireField a.mvps "mvps"
    let sa ← requireField a.saves "saves"
    let sh ← requireField a.shots "shots"
    let asists ← requireField a.assists "assists"
    .ok ⟨w, g, m, sa, sh, asists⟩
  go : List (String × Json) → StatsAcc → Except String Stats
    | [], acc => finish acc
    | (k, v) :: rest, acc =>
        if k = "wins" then
          match acc.wins with
          | some _ => .error "duplicate field wins"
          | none => do go rest { acc with wins := some (← decodeI32 v) }
        else if k = "goals" then
          match acc.goals with
          | some _ => .error "duplicate field goals"
          | none => do go rest { acc with goals := some (← decodeI32 v) }
        else if k = "mvps" then
          match acc.mvps with
          | some _ => .error "duplicate field mvps"
          | none => do go rest { acc with mvps := some (← decodeI32 v) }
        else if k = "saves" then
          match acc.saves with
          | some _ => .error "duplicate field saves"
          | none => do go rest { acc with saves := some (← decodeI32 v) }
        else if k = "shots" then
          match acc.shots with
          | some _ => .error "duplicate field shots"
          | none => do go rest { acc with shots := some (← decodeI32 v) }
        else if k = "assists" then
          match acc.assists with
          | some _ => .error "duplicate field assists"
          | none => do go rest { acc with assists := some (← decodeI32 v) }
        else go rest acc

/-- RankedData record (src/lib.rs lines 153-160): four optional `i32`
fields (`rankPoints`, `matchesPlayed`, `tier`, `division`). -/
structure RankedData where
  rank_points : Option Int
  matches_played : Option Int
  tier : Option Int
  division : Option Int
deriving DecidableEq, Repr

/-- Accumulator for the serde-derived `RankedData` decoder. -/
structure RankedDataAcc where
  rank_points : Option (Option Int) := none
  matches_played : Option (Option Int) := none
  tier : Option (Option Int) := none
  division : Option (Option Int) := none

/-- Serde-derived decoder for `RankedData`; every field is `Option<i32>`
and defaults to `none` when absent. -/
def decodeRankedData (j : Json) : Except String RankedData :=
  match j with
  | .obj fields => go fields {}
  | _ => .error "invalid type, expected struct RankedData"
where
  go : List (String × Json) → RankedDataAcc → Except String RankedData
    | [], acc =>
        .ok ⟨acc.rank_points.getD none, acc.matches_played.getD none,
             acc.tier.getD none, acc.division.getD none⟩
    | (k, v) :: rest, acc =>
        if k = "rankPoints" then
          match acc.rank_points with
          | some _ => .error "duplicate field rankPoints"
          | none => do go rest { acc with rank_points := some (← decodeOption decodeI32 v) }
        else if k = "matchesPlayed" then
          match acc.matches_played with
          | some _ => .error "duplicate field matchesPlayed"
          | none => do go rest { acc with matches_played := some (← decodeOption decodeI32 v) }
        else if k = "tier" then
          match acc.tier with
          | some _ => .error "duplicate field tier"
          | none => do go rest { acc with tier := some (← decodeOption decodeI32 v) }
        else if k = "division" then
          match acc.division with
          | some _ => .error "duplicate field division"
          | none => do go rest { acc with division := some (← decodeOption decodeI32 v) }
        else go rest acc

/-- Player record (src/lib.rs lines 166-193): the aggregate root, with the
JSON keys renamed as in the source (`uniqueId`, `displayName`, `profileUrl`,
`signatureUrl`, `rankedSeasons`, `lastRequested`, `createdAt`, `updatedAt`,
`nextUpdateAt`).  The `rankedSeasons` `BTreeMap<String, BTreeMap<String,
RankedData>>` is modelled as a sorted association list. -/
structure Player where
  unique_id : String
  display_name : String
  platform : Platform
  avatar : Option String
  profile_url : String
  signature_url : String
  stats : Stats
  ranked_seasons : List (String × List (String × RankedData))
  last_requested : Int
  created_at : Int
  updated_at : Int
  next_update_at : Int
deriving DecidableEq, Repr

/-- Accumulator for the serde-derived `Player` decoder. -/
structure PlayerAcc where
  unique_id : Option String := none
  display_name : Option String := none
  platform : Option Platform := none
  avatar : Option (Option String) := none
  profile_url : Option String := none
  signature_url : Option String := none
  stats : Option Stats := none
  ranked_seasons : Option (List (String × List (String × RankedData))) := none
  last_requested : Option Int := none
  created_at : Option Int := none
  updated_at : Option Int := none
  next_update_at : Option Int := none

/-- Serde-derived decoder for `Player`. -/
def decodePlayer (j : Json) : Except String Player :=
  match j with
  | .obj fields => go fields {}
  | _ => .error "invalid type, expected struct Player"
where
  finish (a : PlayerAcc) : Except String Player := do
    let uid ← requireField a.unique_id "uniqueId"
    let dn ← requireField a.display_name "displayName"
    let pf ← requireField a.platform "platform"
    let av := a.avatar.getD none
    let pu ← requireField a.profile_url "profileUrl"
    let su ← requireField a.signature_url "signatureUrl"
    let st ← requireField a.stats "stats"
    let rs ← requireField a.ranked_seasons "rankedSeasons"
    let lr ← requireField a.last_requested "lastRequested"
    let ca ← requireField a.created_at "createdAt"
    let ua ← requireField a.updated_at "updatedAt"
    let nu ← requireField a.next_update_at "nextUpdateAt"
    .ok ⟨uid, dn, pf, av, pu, su, st, rs, lr, ca, ua, nu⟩
  go : List (String × Json) → PlayerAcc → Except String Player
    | [], acc => finish acc
    | (k, v) :: rest, acc =>
        if k = "uniqueId" then
          match acc.unique_id with
          | some _ => .error "duplicate field uniqueId"
          | none => do go rest { acc with unique_id := some (← decodeString v) }
        else if k = "displayName" then
          match acc.display_name with
          | some _ => .error "duplicate field displayName"
          | none => do go rest { acc with display_name := some (← decodeString v) }
        else if k = "platform" then
          match acc.platform with
          | some _ => .error "duplicate field platform"
          | none => do go rest { acc with platform := some (← decodePlatform v) }
        else if k = "avatar" then
          match acc.avatar with
          | some _ => .error "duplicate field avatar"
          | none => do go rest { acc with avatar := some (← decodeOption decodeString v) }
        else if k = "profileUrl" then
          match acc.profile_url with
          | some _ => .error "duplicate field profileUrl"
          | none => do go rest { acc with profile_url := some (← decodeString v) }
        else if k = "signatureUrl" then
          match acc.signature_url with
          | some _ => .error "duplicate field signatureUrl"
          | none => do go rest { acc with signature_url := some (← decodeString v) }
        else if k = "stats" then
          match acc.stats with
          | some _ => .error "duplicate field stats"
          | none => do go rest { acc with stats := some (← decodeStats v) }
        else if k = "rankedSeasons" then
          match acc.ranked_seasons with
          | some _ => .error "duplicate field rankedSeasons"
          | none => do
              go rest { acc with
                ranked_seasons := some (← decodeStrMap (decodeStrMap decodeRankedData) v) }
        else if k = "lastRequested" then
          match acc.last_requested with
          | some _ => .error "duplicate field lastRequested"
          | none => do go rest { acc with last_requested := some (← decodeI64 v) }
        else if k = "createdAt" then
          match acc.created_at with
          | some _ => .error "duplicate field createdAt"
          | none => do go rest { acc with created_at := some (← decodeI64 v) }
        else if k = "updatedAt" then
          match acc.updated_at with
          | some _ => .error "duplicate field updatedAt"
          | none => do go rest { acc with updated_at := some (← decodeI64 v) }
        else if k = "nextUpdateAt" then
          match acc.next_update_at with
          | some _ => .error "duplicate field nextUpdateAt"
          | none => do go rest { acc with next_update_at := some (← decodeI64 v) }
        else go rest acc

/-- SearchResponse record (src/lib.rs lines 197-206): `page: Option<i32>`,
`results: i32`, `totalResults: i32`, `maxResultsPerPage: i32`,
`data: Vec<Player>`. -/
structure SearchResponse where
  page : Option Int
  results : Int
  total_results : Int
  max_results_per_page : Int
  data : List Player
deriving DecidableEq, Repr

/-- Accumulator for the serde-derived `SearchResponse` decoder. -/
structure SearchResponseAcc where
  page : Option (Option Int) := none
  results : Option Int := none
  total_results : Option Int := none
  max_results_per_page : Option Int := none
  data : Option (List Player) := none

/-- Serde-derived decoder for `SearchResponse`. -/
def decodeSearchResponse (j : Json) : Except String SearchResponse :=
  match j with
  | .obj fields => go fields {}
  | _ => .error "invalid type, expected struct SearchResponse"
where
  finish (a : SearchResponseAcc) : Except String SearchResponse := do
    let p := a.page.getD none
    let r ← requireField a.results "results"
    let tr ← requireField a.total_results "totalResults"
    let mr ← requireField a.max_results_per_page "maxResultsPerPage"
    let d ← requireField a.data "data"
    .ok ⟨p, r, tr, mr, d⟩
  go : List (String × Json) → SearchResponseAcc → Except String SearchResponse
    | [], acc => finish acc
    | (k, v) :: rest, acc =>
        if k = "page" then
          match acc.page with
          | some _ => .error "duplicate field page"
          | none => do go rest { acc with page := some (← decodeOption decodeI32 v) }
        else if k = "results" then
          match acc.results with
          | some _ => .error "duplicate field results"
          | none => do go rest { acc with results := some (← decodeI32 v) }
        else if k = "totalResults" then
          match acc.total_results with
          | some _ => .error "duplicate field totalResults"
          | none => do go rest { acc with total_results := some (← decodeI32 v) }
        else if k = "maxResultsPerPage" then
          match acc.max_results_per_page with
          | some _ => .error "duplicate field maxResultsPerPage"
          | none => do go rest { acc with max_results_per_page := some (← decodeI32 v) }
        else if k = "data" then
          match acc.data with
          | some _ => .error "duplicate field data"
          | none => do go rest { acc with data := some (← decodeList decodePlayer v) }
        else go rest acc

/-- BatchPlayer record (src/lib.rs lines 209-215): the write-only request
shape with serialized keys `uniqueId` (for field `id`) and `platformId`. -/
structure BatchPlayer where
  id : String
  platform_id : Int
deriving DecidableEq, Repr

/-- Serde-derived serialization of one `BatchPlayer`: a JSON object whose
entries are the struct fields in declaration order under their renamed
keys. -/
def BatchPlayer.toJson (p : BatchPlayer) : Json :=
  .obj [("uniqueId", .str p.id), ("platformId", .num p.platform_id)]

/-- Serialization of `Vec<BatchPlayer>` (the `&players` body of
`batch_players`): a JSON array of the serialized elements. -/
def serializeBatch (players : List BatchPlayer) : Json :=
  .arr (players.map BatchPlayer.toJson)

/-- Serialization of the Rust unit value `()`, the body value that
`RlStats::get` hands to `request`: serde serializes `()` as JSON `null`. -/
def unitJson : Json := .null

/-- Opaque transport-layer failure (a `reqwest::Error`), abstracted as a
message. -/
def ReqwestErr : Type := String

/-- Error taxonomy of the client (src/lib.rs lines 14-20). -/
inductive Error where
  | RateLimited : Error
  | ResponseCode : ResponseCode → Error
  | ReqwestError : ReqwestErr → Error
  | SerdeJson : String → Error

/-- Transport binding (`reqwest::Client`): the only observable configuration
is its set of default headers, which `Client::new()` leaves empty. -/
structure Client where
  defaultHeaders : List (String × String)

/-- Result of `reqwest::Client::new()`: a client with no default headers.
Its Rust counterpart can fail for environmental reasons (TLS backend
initialization), a failure that is independent of any credential; that
fallibility is threaded through `RlStats.new` below as an explicit
argument. -/
def Client.new : Client := { defaultHeaders := [] }

/-- The API client (src/lib.rs lines 218-221): the transport binding plus
the stored credential. -/
structure RlStats where
  client : Client
  api_key : String

/-- Construction (src/lib.rs lines 224-231): `Client::new()?` is threaded in
as `clientInit`, its failure converted through `From<reqwest::Error>`;
the credential is stored verbatim with no validation of any kind. -/
def RlStats.new (clientInit : Except ReqwestErr Client) (api_key : String) :
    Except Error RlStats :=
  match clientInit with
  | .error e => .error (.ReqwestError e)
  | .ok c => .ok { client := c, api_key := api_key }

/-- Fixed API base URL (src/lib.rs line 12). -/
def API_URL : String := "https://api.rocketleaguestats.com/v1"

/-- Modelled from the spec: the Cargo package name substituted by
`env!("CARGO_PKG_NAME")` — the package manifest is not among the source
files; only the surrounding form of the user-agent string matters. -/
def CARGO_PKG_NAME : String := "rlstats"

/-- Modelled from the spec: the Cargo package version substituted by
`env!("CARGO_PKG_VERSION")` — the package manifest is not among the source
files; only the surrounding form of the user-agent string matters. -/
def CARGO_PKG_VERSION : String := "0.1.0"

/-- User-agent string computed on each call of `request`
(src/lib.rs line 284): `format!("{} (v {})", name, version)`. -/
def user_agent : String := CARGO_PKG_NAME ++ " (v " ++ CARGO_PKG_VERSION ++ ")"

/-- Status line constant `StatusCode::TooManyRequests`. -/
def TooManyRequests : Nat := 429

/-- HTTP method of a request (`reqwest::Method`), restricted to the two
verbs the client uses. -/
inductive HttpMethod where
  | Get : HttpMethod
  | Post : HttpMethod
deriving DecidableEq, Repr

/-- An outbound HTTP request as assembled by the dispatcher: verb, absolute
URL, header list (the binding's default headers followed by the headers set
per call), and the JSON-serialized body. -/
structure BuiltRequest where
  method : HttpMethod
  url : String
  headers : List (String × String)
  body : Json

/-- An HTTP response as the dispatcher observes it: the status line, and
the result of `read_to_string` on the body — either an I/O failure
(non-UTF-8 bytes, dropped connection) or the body text, abstracted as its
JSON parse (`none` when the text is not valid JSON). -/
structure HttpResponse where
  status : Nat
  bodyRead : Except String (Option Json)

/-- Outcomes of one dispatch: a decoded success, an `Error`, or a panic of
the calling thread. -/
inductive Outcome (T : Type) where
  | ok : T → Outcome T
  | err : Error → Outcome T
  | panicked : Outcome T

/-- Request assembly inside `RlStats::request` (src/lib.rs lines 284-289):
`client.request(method, API_URL ++ endpoint)` followed by the
`Authorization`, `Accept` and `User-Agent` headers set on the builder for
this call, and `.json(&j)` attaching the serialized body.  URL-parse and
body-serialization failures of the builder (`?` sites) cannot fire for the
shapes this client serializes, so assembly is total. -/
def RlStats.buildRequest (c : RlStats) (endpoint : String) (method : HttpMethod)
    (j : Json) : BuiltRequest :=
  { method := method
    url := API_URL ++ endpoint
    headers := c.client.defaultHeaders ++
      [("Authorization", c.api_key),
       ("Accept", "application/json"),
       ("User-Agent", user_agent)]
    body := j }

/-- Dispatcher (src/lib.rs lines 280-304).  The network is an explicit
`send` oracle from the assembled request to a transport result.  On
transport failure the `reqwest::Error` is wrapped; on a 429 status the call
fails with `RateLimited` before the body is touched; otherwise
`read_to_string(..).unwrap()` reads the body (panicking on I/O failure) and
the dual-shape decode runs: the success type first, then the
`ResponseCode` envelope, whose own parse failure is what `SerdeJson`
carries when both fail. -/
def RlStats.request (c : RlStats) (decodeT : Json → Except String T)
    (endpoint : String) (method : HttpMethod) (j : Json)
    (send : BuiltRequest → Except ReqwestErr HttpResponse) : Outcome T :=
  match send (c.buildRequest endpoint method j) with
  | .error e => .err (.ReqwestError e)
  | .ok resp =>
      if resp.status = TooManyRequests then .err .RateLimited
      else
        match resp.bodyRead with
        | .error _ => .panicked
        | .ok content =>
            match fromStr decodeT content with
            | .ok t => .ok t
            | .error _ =>
                match fromStr decodeResponseCode content with
                | .ok r => .err (.ResponseCode r)
                | .error e => .err (.SerdeJson e)

/-- GET helper (src/lib.rs lines 274-278): delegates to `request` with
`Method::Get` and the serialized unit body. -/
def RlStats.get (c : RlStats) (decodeT : Json → Except String T) (endpoint : String)
    (send : BuiltRequest → Except ReqwestErr HttpResponse) : Outcome T :=
  c.request decodeT endpoint .Get unitJson send

/-- Endpoint method `get_platforms` (src/lib.rs lines 233-235). -/
def RlStats.get_platforms (c : RlStats)
    (send : BuiltRequest → Except ReqwestErr HttpResponse) : Outcome (List Platform) :=
  c.get (decodeList decodePlatform) "/data/platforms" send

/-- Endpoint method `get_seasons` (src/lib.rs lines 237-239). -/
def RlStats.get_seasons (c : RlStats)
    (send : BuiltRequest → Except ReqwestErr HttpResponse) : Outcome (List Season) :=
  c.get (decodeList decodeSeason) "/data/seasons" send

/-- Endpoint method `get_playlists` (src/lib.rs lines 241-243). -/
def RlStats.get_playlists (c : RlStats)
    (send : BuiltRequest → Except ReqwestErr HttpResponse) : Outcome (List Playlist) :=
  c.get (decodeList decodePlaylist) "/data/playlists" send

/-- Endpoint method `get_tiers` (src/lib.rs lines 245-247). -/
def RlStats.get_tiers (c : RlStats)
    (send : BuiltRequest → Except ReqwestErr HttpResponse) : Outcome (List Tier) :=
  c.get (decodeList decodeTier) "/data/tiers" send

/-- Endpoint method `get_player` (src/lib.rs lines 249-251): the
`format!` string interpolates both arguments verbatim. -/
def RlStats.get_player (c : RlStats) (unique_id : String) (platform_id : Int)
    (send : BuiltRequest → Except ReqwestErr HttpResponse) : Outcome Player :=
  c.get decodePlayer
    ("/player?unique_id=" ++ unique_id ++ "&platform_id=" ++ toString platform_id) send

/-- Endpoint method `search_players` (src/lib.rs lines 254-256); `page` is a
`u32`, modelled as `Nat`. -/
def RlStats.search_players (c : RlStats) (display_name : String) (page : Nat)
    (send : BuiltRequest → Except ReqwestErr HttpResponse) : Outcome SearchResponse :=
  c.get decodeSearchResponse
    ("/search/players?display_name=" ++ display_name ++ "&page=" ++ toString page) send

/-- Endpoint method `batch_players` (src/lib.rs lines 262-264): the one POST,
with the serialized players as body. -/
def RlStats.batch_players (c : RlStats) (players : List BatchPlayer)
    (send : BuiltRequest → Except ReqwestErr HttpResponse) : Outcome (List Player) :=
  c.request (decodeList decodePlayer) "/player/batch" .Post (serializeBatch players) send

/-- Endpoint method `get_ranked_leaderboard` (src/lib.rs lines 266-268). -/
def RlStats.get_ranked_leaderboard (c : RlStats) (playlist_id : Int)
    (send : BuiltRequest → Except ReqwestErr HttpResponse) : Outcome (List Player) :=
  c.get (decodeList decodePlayer)
    ("/leaderboard/ranked?playlist_id=" ++ toString playlist_id) send

/-- Endpoint method `get_stat_leaderboard` (src/lib.rs lines 270-272). -/
def RlStats.get_stat_leaderboard (c : RlStats) (ty : String)
    (send : BuiltRequest → Except ReqwestErr HttpResponse) : Outcome (List Player) :=
  c.get (decodeList decodePlayer) ("/leaderboard/stat?type=" ++ ty) send

/-- Helper for claim C9: decoding the serialized batch elements one by one
reconstructs each player's (uniqueId, platformId) pair. -/
def jsonLookup (k : String) : List (String × Json) → Option Json
  | [] => none
  | (k', v) :: rest => if k' = k then some v else jsonLookup k rest

/-- Modelled from the spec: the stub server of the round-trip property reads
each body element back as a plain `\x7buniqueId, platformId\x7d` JSON object. -/
def decodeBatchItem : Json → Except String (String × Int)
  | .obj fields =>
      match jsonLookup "uniqueId" fields, jsonLookup "platformId" fields with
      | some (.str s), some (.num n) => .ok (s, n)
      | _, _ => .error "batch item lacks the uniqueId and platformId keys"
  | _ => .error "batch item is not an object"

theorem decodeBatch_go_map (players : List BatchPlayer) :
    decodeList.go decodeBatchItem (players.map BatchPlayer.toJson) =
      .ok (players.map fun p => (p.id, p.platform_id)) := by
  induction players with
  | nil => rfl
  | cons p rest ih =>
      simp [List.map, decodeList.go, decodeBatchItem, BatchPlayer.toJson, jsonLookup, ih,
        bind, Except.bind]

/-- C1: for every response whose status is not the rate-limit status, if the
body text decodes structurally as the expected success type `T` then
`RlStats::request` returns that decoded value, regardless of the HTTP status
code attached to the response. -/
theorem C1_success_decode_always_wins {T : Type} (decodeT : Json → Except String T)
    (c : RlStats) (endpoint : String) (method : HttpMethod) (j : Json)
    (send : BuiltRequest → Except ReqwestErr HttpResponse)
    (resp : HttpResponse) (content : Option Json) (t : T)
    (hsend : send (c.buildRequest endpoint method j) = .ok resp)
    (hstatus : resp.status ≠ TooManyRequests)
    (hbody : resp.bodyRead = .ok content)
    (hdec : fromStr decodeT content = .ok t) :
    c.request decodeT endpoint method j send = .ok t := by
  obtain ⟨status, bodyRead⟩ := resp
  simp only at hstatus hbody
  subst hbody
  simp [RlStats.request, hsend, hstatus, hdec]

/-- Witness for C1, instantiated at the edge case the claim singles out: an
empty JSON array body on a list endpoint, under a non-429 failure status
code (500), is returned as the valid empty success value. -/
theorem C1_success_decode_always_wins_witness :
    (500 : Nat) ≠ TooManyRequests ∧
    fromStr (decodeList decodePlatform) (some (.arr [])) = .ok [] ∧
    RlStats.request ⟨Client.new, "abc123"⟩ (decodeList decodePlatform) "/data/platforms"
      .Get unitJson (fun _ => .ok ⟨500, .ok (some (.arr []))⟩) = .ok [] :=
  ⟨by decide, rfl,
   C1_success_decode_always_wins (decodeList decodePlatform) ⟨Client.new, "abc123"⟩
     "/data/platforms" .Get unitJson (fun _ => .ok ⟨500, .ok (some (.arr []))⟩)
     ⟨500, .ok (some (.arr []))⟩ (some (.arr [])) [] rfl (by decide) rfl rfl⟩

/-- C2: for every response whose status line is 429, `RlStats::request`
returns the `RateLimited` error for every success decoder and every body,
including a body whose read would fail — the body is never read or
parsed. -/
theorem C2_rate_limit_short_circuits {T : Type} (decodeT : Json → Except String T)
    (c : RlStats) (endpoint : String) (method : HttpMethod) (j : Json)
    (send : BuiltRequest → Except ReqwestErr HttpResponse)
    (resp : HttpResponse)
    (hsend : send (c.buildRequest endpoint method j) = .ok resp)
    (hstatus : resp.status = TooManyRequests) :
    c.request decodeT endpoint method j send = .err .RateLimited := by
  obtain ⟨status, bodyRead⟩ := resp
  simp only at hstatus
  subst hstatus
  simp [RlStats.request, hsend]

/-- Witness for C2: a 429 response whose body read would fail still comes
back as `RateLimited`, showing the body is not touched. -/
theorem C2_rate_limit_short_circuits_witness :
    (429 : Nat) = TooManyRequests ∧
    RlStats.request ⟨Client.new, "abc123"⟩ decodePlayer "/player?unique_id=x&platform_id=1"
      .Get unitJson (fun _ => .ok ⟨429, .error "body never read"⟩) = .err .RateLimited :=
  ⟨rfl,
   C2_rate_limit_short_circuits decodePlayer ⟨Client.new, "abc123"⟩
     "/player?unique_id=x&platform_id=1" .Get unitJson
     (fun _ => .ok ⟨429, .error "body never read"⟩) ⟨429, .error "body never read"⟩ rfl rfl⟩

/-- C3: for every non-rate-limited response body that fails to decode as the
success type but decodes as the `\x7bcode, message\x7d` envelope,
`RlStats::request` returns `Error.ResponseCode` carrying exactly the decoded
envelope, unchanged. -/
theorem C3_service_error_envelope {T : Type} (decodeT : Json → Except String T)
    (c : RlStats) (endpoint : String) (method : HttpMethod) (j : Json)
    (send : BuiltRequest → Except ReqwestErr HttpResponse)
    (resp : HttpResponse) (content : Option Json) (e₁ : String) (r : ResponseCode)
    (hsend : send (c.buildRequest endpoint method j) = .ok resp)
    (hstatus : resp.status ≠ TooManyRequests)
    (hbody : resp.bodyRead = .ok content)
    (hfailT : fromStr decodeT content = .error e₁)
    (henv : fromStr decodeResponseCode content = .ok r) :
    c.request decodeT endpoint method j send = .err (.ResponseCode r) := by
  obtain ⟨status, bodyRead⟩ := resp
  simp only at hstatus hbody
  subst hbody
  simp [RlStats.request, hsend, hstatus, hfailT, henv]

/-- Witness for C3, the spec's concrete scenario 2: the body
`\x7b"code":404,"message":"Player not found"\x7d` on the get-player endpoint
yields `ServiceError(404, "Player not found")`. -/
theorem C3_service_error_envelope_witness :
    (200 : Nat) ≠ TooManyRequests ∧
    fromStr decodePlayer (some (.obj [("code", .num 404), ("message", .str "Player not found")])) =
      .error "missing field uniqueId" ∧
    fromStr decodeResponseCode
      (some (.obj [("code", .num 404), ("message", .str "Player not found")])) =
      .ok ⟨404, "Player not found"⟩ ∧
    RlStats.request ⟨Client.new, "abc123"⟩ decodePlayer "/player?unique_id=x&platform_id=1"
      .Get unitJson
      (fun _ => .ok ⟨200, .ok (some (.obj [("code", .num 404), ("message", .str "Player not found")]))⟩) =
      .err (.ResponseCode ⟨404, "Player not found"⟩) :=
  ⟨by decide, rfl, rfl,
   C3_service_error_envelope decodePlayer ⟨Client.new, "abc123"⟩
     "/player?unique_id=x&platform_id=1" .Get unitJson
     (fun _ => .ok ⟨200, .ok (some (.obj [("code", .num 404), ("message", .str "Player not found")]))⟩)
     ⟨200, .ok (some (.obj [("code", .num 404), ("message", .str "Player not found")]))⟩
     (some (.obj [("code", .num 404), ("message", .str "Player not found")]))
     "missing field uniqueId" ⟨404, "Player not found"⟩ rfl (by decide) rfl rfl rfl⟩

/-- C4: for every non-rate-limited response body that decodes neither as the
success type nor as the error envelope, `RlStats::request` returns
`Error.SerdeJson` carrying the parse failure of the envelope attempt — in
particular it neither panics nor returns a success value. -/
theorem C4_malformed_response {T : Type} (decodeT : Json → Except String T)
    (c : RlStats) (endpoint : String) (method : HttpMethod) (j : Json)
    (send : BuiltRequest → Except ReqwestErr HttpResponse)
    (resp : HttpResponse) (content : Option Json) (e₁ e₂ : String)
    (hsend : send (c.buildRequest endpoint method j) = .ok resp)
    (hstatus : resp.status ≠ TooManyRequests)
    (hbody : resp.bodyRead = .ok content)
    (hfailT : fromStr decodeT content = .error e₁)
    (hfailEnv : fromStr decodeResponseCode content = .error e₂) :
    c.request decodeT endpoint method j send = .err (.SerdeJson e₂) := by
  obtain ⟨status, bodyRead⟩ := resp
  simp only at hstatus hbody
  subst hbody
  simp [RlStats.request, hsend, hstatus, hfailT, hfailEnv]

/-- Witness for C4, the spec's concrete scenario 4: the body
`\x7b"unexpected":"shape"\x7d` on the get-seasons endpoint yields a
`SerdeJson` error, and the error carried is the envelope attempt's
"missing field code", not the sequence-decoder's failure. -/
theorem C4_malformed_response_witness :
    (200 : Nat) ≠ TooManyRequests ∧
    fromStr (decodeList decodeSeason) (some (.obj [("unexpected", .str "shape")])) =
      .error "invalid type, expected a sequence" ∧
    fromStr decodeResponseCode (some (.obj [("unexpected", .str "shape")])) =
      .error "missing field code" ∧
    RlStats.request ⟨Client.new, "abc123"⟩ (decodeList decodeSeason) "/data/seasons"
      .Get unitJson (fun _ => .ok ⟨200, .ok (some (.obj [("unexpected", .str "shape")]))⟩) =
      .err (.SerdeJson "missing field code") :=
  ⟨by decide, rfl, rfl,
   C4_malformed_response (decodeList decodeSeason) ⟨Client.new, "abc123"⟩ "/data/seasons"
     .Get unitJson (fun _ => .ok ⟨200, .ok (some (.obj [("unexpected", .str "shape")]))⟩)
     ⟨200, .ok (some (.obj [("unexpected", .str "shape")]))⟩
     (some (.obj [("unexpected", .str "shape")]))
     "invalid type, expected a sequence" "missing field code" rfl (by decide) rfl rfl rfl⟩

/-- Counterexample to C5: the credential "abc\ndef" contains a line feed,
a character illegal in an HTTP header value, yet `RlStats::new` (with the
transport client initializing normally) succeeds and returns a usable
client storing that credential verbatim — it does not return an `Err`. -/
theorem C5_counterexample_construction_accepts_illegal_credential :
    '\n' ∈ "abc\ndef".data ∧
    RlStats.new (.ok Client.new) "abc\ndef" = .ok ⟨Client.new, "abc\ndef"⟩ :=
  ⟨by decide, rfl⟩

/-- C5 as amended: `RlStats::new` performs no validation of the credential
at all — its result is determined by the transport-client initialization
alone, and whenever that succeeds the constructor returns `Ok` with the
credential stored verbatim, for every credential string including ones with
characters illegal in an HTTP header value; it never panics. -/
theorem C5_amended_no_credential_validation (api_key : String)
    (clientInit : Except ReqwestErr Client) :
    RlStats.new clientInit api_key =
      match clientInit with
      | .ok c => .ok ⟨c, api_key⟩
      | .error e => .error (.ReqwestError e) := by
  cases clientInit <;> rfl

/-- Counterexample to C6: the transport binding built at construction has an
empty default-header set, and the Authorization header of a dispatched
request is not among the binding's default headers — the headers are
composed inside the dispatcher on each request, not fixed at
construction. -/
theorem C6_counterexample_headers_composed_per_request :
    Client.new.defaultHeaders = [] ∧
    ("Authorization", "abc123") ∈
      (RlStats.buildRequest ⟨Client.new, "abc123"⟩ "/data/platforms" .Get unitJson).headers ∧
    ("Authorization", "abc123") ∉ Client.new.defaultHeaders :=
  ⟨rfl, by simp [RlStats.buildRequest, Client.new], by simp [Client.new]⟩

/-- C6 as amended: the transport binding is built at construction with no
default headers, and the Authorization, Accept and User-Agent headers are
composed per request inside the dispatcher from the credential stored at
construction — identically on every call, so every request of a constructed
client carries the same header list. -/
theorem C6_amended_per_request_header_composition (api_key endpoint : String)
    (method : HttpMethod) (j : Json) :
    Client.new.defaultHeaders = [] ∧
    (RlStats.buildRequest ⟨Client.new, api_key⟩ endpoint method j).headers =
      [("Authorization", api_key),
       ("Accept", "application/json"),
       ("User-Agent", user_agent)] :=
  ⟨rfl, rfl⟩

/-- C7: every request assembled by the dispatcher for a constructed client
carries the Authorization header with the stored credential, the
`Accept: application/json` header, and a User-Agent of exactly the form
`name (v version)`, and its URL is the fixed base URL concatenated with the
endpoint path; the body is the serialized `j` and the verb the given one. -/
theorem C7_request_headers_and_url (api_key endpoint : String) (method : HttpMethod)
    (j : Json) :
    RlStats.buildRequest ⟨Client.new, api_key⟩ endpoint method j =
      { method := method
        url := API_URL ++ endpoint
        headers := [("Authorization", api_key),
                    ("Accept", "application/json"),
                    ("User-Agent", CARGO_PKG_NAME ++ " (v " ++ CARGO_PKG_VERSION ++ ")")]
        body := j } := rfl

/-- C8: each endpoint method maps its typed arguments to the tabulated
(path, verb, body) triple — interpolating `unique_id`, `display_name` and
the leaderboard type verbatim with no client-side escaping — and returns
the dispatcher's result unchanged (GET methods attach the serialized unit
body). -/
theorem C8_endpoint_method_table (c : RlStats) (uid name ty : String)
    (pid plid : Int) (page : Nat) (players : List BatchPlayer)
    (send : BuiltRequest → Except ReqwestErr HttpResponse) :
    c.get_platforms send =
      c.request (decodeList decodePlatform) "/data/platforms" .Get unitJson send ∧
    c.get_seasons send =
      c.request (decodeList decodeSeason) "/data/seasons" .Get unitJson send ∧
    c.get_playlists send =
      c.request (decodeList decodePlaylist) "/data/playlists" .Get unitJson send ∧
    c.get_tiers send =
      c.request (decodeList decodeTier) "/data/tiers" .Get unitJson send ∧
    c.get_player uid pid send =
      c.request decodePlayer
        ("/player?unique_id=" ++ uid ++ "&platform_id=" ++ toString pid) .Get unitJson send ∧
    c.search_players name page send =
      c.request decodeSearchResponse
        ("/search/players?display_name=" ++ name ++ "&page=" ++ toString page)
        .Get unitJson send ∧
    c.batch_players players send =
      c.request (decodeList decodePlayer) "/player/batch" .Post (serializeBatch players) send ∧
    c.get_ranked_leaderboard plid send =
      c.request (decodeList decodePlayer)
        ("/leaderboard/ranked?playlist_id=" ++ toString plid) .Get unitJson send ∧
    c.get_stat_leaderboard ty send =
      c.request (decodeList decodePlayer) ("/leaderboard/stat?type=" ++ ty) .Get unitJson send :=
  ⟨rfl, rfl, rfl, rfl, rfl, rfl, rfl, rfl, rfl⟩

/-- C9: serializing any sequence of `BatchPlayer` values as the batch-lookup
body yields a JSON array whose elements are objects with exactly the keys
`uniqueId` (the id string) and `platformId` (the platform id number), and
reading that body back as JSON reconstructs the sequence of
(uniqueId, platformId) pairs. -/
theorem C9_batch_player_round_trip (players : List BatchPlayer) :
    serializeBatch players =
      .arr (players.map fun p => .obj [("uniqueId", .str p.id), ("platformId", .num p.platform_id)]) ∧
    decodeList decodeBatchItem (serializeBatch players) =
      .ok (players.map fun p => (p.id, p.platform_id)) :=
  ⟨rfl, decodeBatch_go_map players⟩

/-- C10: if, after a non-429 response, reading the body into the text buffer
fails, `RlStats::request` panics (the `unwrap` on `read_to_string`) rather
than returning a transport error or any other error value. -/
theorem C10_body_read_failure_panics {T : Type} (decodeT : Json → Except String T)
    (c : RlStats) (endpoint : String) (method : HttpMethod) (j : Json)
    (send : BuiltRequest → Except ReqwestErr HttpResponse)
    (resp : HttpResponse) (e : String)
    (hsend : send (c.buildRequest endpoint method j) = .ok resp)
    (hstatus : resp.status ≠ TooManyRequests)
    (hbody : resp.bodyRead = .error e) :
    c.request decodeT endpoint method j send = .panicked := by
  obtain ⟨status, bodyRead⟩ := resp
  simp only at hstatus hbody
  subst hbody
  simp [RlStats.request, hsend, hstatus]

/-- Witness for C10: a 200 response whose body bytes are not valid UTF-8
makes the dispatcher panic. -/
theorem C10_body_read_failure_panics_witness :
    (200 : Nat) ≠ TooManyRequests ∧
    RlStats.request ⟨Client.new, "abc123"⟩ (decodeList decodePlatform) "/data/platforms"
      .Get unitJson (fun _ => .ok ⟨200, .error "stream did not contain valid UTF-8"⟩) =
      .panicked :=
  ⟨by decide,
   C10_body_read_failure_panics (decodeList decodePlatform) ⟨Client.new, "abc123"⟩
     "/data/platforms" .Get unitJson
     (fun _ => .ok ⟨200, .error "stream did not contain valid UTF-8"⟩)
     ⟨200, .error "stream did not contain valid UTF-8"⟩
     "stream did not contain valid UTF-8" rfl (by decide) rfl⟩
